import Mathlib

/-!
Verification of the sampling-and-publish loop of `src/src/jennytest.cpp`
(an Arduino sketch that polls a DHT temperature/humidity sensor and an
occupancy pin and republishes the readings as HomeKit characteristics).

Shallow embedding conventions:
* `uint32_t` values are `Nat` with explicit reduction `% 2^32` wherever the
  C code can overflow (the deadline additions `t + REPORTING_TIME_MS` and
  `t + 5 * 1000`).
* `float` sensor values are modelled by `FVal`: either `nan` (a failed DHT
  read) or an exact rational value.  Subtraction of the calibration constant
  propagates `nan`, mirroring IEEE-754 NaN propagation, and `isnan` detects
  exactly the `nan` case.
* The side effects of one tick (serial prints, characteristic writes,
  notifies, digital pin writes, sensor reads) are reified as a list of
  `Event`s in program order.
-/

namespace Jennytest

/-- Model of a C `float` as produced by the DHT driver: either NaN (failed
read) or an exact rational value. -/
inductive FVal where
  | nan : FVal
  | val : ℚ → FVal
deriving DecidableEq

/-- Float subtraction of a constant, as in `dht.getTemperature() - 3.0`:
NaN propagates, otherwise exact subtraction. -/
def FVal.sub (x : FVal) (c : ℚ) : FVal :=
  match x with
  | .nan => .nan
  | .val q => .val (q - c)

/-- The C `isnan` predicate on our float model. -/
def FVal.isnan : FVal → Bool
  | .nan => true
  | .val _ => false

/-- `#define REPORTING_TIME_MS 2 * 1000` -/
def REPORTING_TIME_MS : Nat := 2 * 1000

/-- `#define SHOW_HEAP_MS 10 * 1000` — defined in the source but never used;
the heap branch of `my_homekit_loop` hardcodes `5 * 1000` instead. -/
def SHOW_HEAP_MS : Nat := 10 * 1000

/-- `2^32`, the modulus of the `uint32_t` arithmetic on deadlines. -/
def UINT32_MOD : Nat := 4294967296

/-- `uint32_t` addition: wraps modulo `2^32`. -/
def add32 (a b : Nat) : Nat := (a + b) % UINT32_MOD

/-- The state read by one report tick: the raw DHT temperature and humidity
(each possibly NaN) and the boolean level of the occupancy input pin. -/
structure SensorState where
  dhtTemperature : FVal
  dhtHumidity : FVal
  occupancyPin : Bool
deriving DecidableEq

/-- The two module-level `static uint32_t` deadlines of the sketch. -/
structure ScheduleState where
  next_report_millis : Nat
  next_heap_millis : Nat
deriving DecidableEq

/-- `static uint32_t next_heap_millis = 0; static uint32_t next_report_millis = 0;` -/
def initialScheduleState : ScheduleState :=
  { next_report_millis := 0, next_heap_millis := 0 }

/-- One observable side effect of a tick, in program order. -/
inductive Event where
  | homekitServerLoop : Event
  | readTemperature : Event
  | readHumidity : Event
  | readOccupancyPin : Event
  | digitalWriteD0 : Bool → Event
  | serialPrintlnDhtFail : Event
  | writeTemperatureChar : FVal → Event
  | notifyTemperatureChar : FVal → Event
  | writeHumidityChar : FVal → Event
  | notifyHumidityChar : FVal → Event
  | logTemperature : FVal → Event
  | logHumidity : FVal → Event
  | writeOccupancyChar : Bool → Event
  | notifyOccupancyChar : Bool → Event
  | logOccupancy : Bool → Event
  | queryConnectedClients : Event
  | logHeapLine : Event
deriving DecidableEq

/-- The spec's `SampleReading`: calibrated temperature, raw humidity,
occupancy boolean, as assembled by the locals of `my_homekit_report`. -/
structure SampleReading where
  temperatureC : FVal
  humidityPct : FVal
  occupied : Bool
deriving DecidableEq

/-- The `SampleReading` produced by one execution of `my_homekit_report`:
`temp = dht.getTemperature() - 3.0`, `hum = dht.getHumidity()`,
`occupancy_sensor_value = (bool)digitalRead(OCCUPANCY_SENSOR_PIN)`. -/
def sampleReading (s : SensorState) : SampleReading :=
  { temperatureC := s.dhtTemperature.sub 3
    humidityPct := s.dhtHumidity
    occupied := s.occupancyPin }

/-- Embedding of `my_homekit_report` (lines 114–140): reads the sensors,
drives the D0 output pin, and publishes characteristics; emits the side
effects of the tick in program order. -/
def my_homekit_report (s : SensorState) : List Event :=
  let temp := s.dhtTemperature.sub 3
  let hum := s.dhtHumidity
  let occ := s.occupancyPin
  [Event.readTemperature, Event.readHumidity, Event.readOccupancyPin,
   Event.digitalWriteD0 occ] ++
  (if hum.isnan || temp.isnan then
    [Event.serialPrintlnDhtFail]
  else
    [Event.writeTemperatureChar temp, Event.notifyTemperatureChar temp,
     Event.writeHumidityChar hum, Event.notifyHumidityChar hum,
     Event.logTemperature temp, Event.logHumidity hum]) ++
  [Event.writeOccupancyChar occ, Event.notifyOccupancyChar occ,
   Event.logOccupancy occ]

/-- The report gate of `my_homekit_loop`: `t > next_report_millis`. -/
def reportDue (t : Nat) (st : ScheduleState) : Bool :=
  decide (st.next_report_millis < t)

/-- The heap-log gate of `my_homekit_loop`: `t > next_heap_millis`. -/
def heapDue (t : Nat) (st : ScheduleState) : Bool :=
  decide (st.next_heap_millis < t)

/-- Embedding of `my_homekit_loop` (lines 97–112): calls the HomeKit server
loop, then runs the report branch (advancing `next_report_millis` to
`t + REPORTING_TIME_MS` before calling `my_homekit_report`) and then the
heap-log branch (querying the client count and advancing `next_heap_millis`
to `t + 5 * 1000`).  Returns the updated schedule state and the tick's
events in program order. -/
def my_homekit_loop (t : Nat) (s : SensorState) (st : ScheduleState) :
    ScheduleState × List Event :=
  let step1 : ScheduleState × List Event :=
    if reportDue t st then
      ({ st with next_report_millis := add32 t REPORTING_TIME_MS },
       my_homekit_report s)
    else (st, [])
  let st1 := step1.1
  let step2 : ScheduleState × List Event :=
    if heapDue t st1 then
      ({ st1 with next_heap_millis := add32 t (5 * 1000) },
       [Event.queryConnectedClients, Event.logHeapLine])
    else (st1, [])
  (step2.1, Event.homekitServerLoop :: (step1.2 ++ step2.2))

/-- The schedule-state component of `my_homekit_loop`, as a function of the
clock and schedule alone (the sensor values never influence the deadlines). -/
def loopSchedule (t : Nat) (st : ScheduleState) : ScheduleState :=
  let st1 :=
    if reportDue t st then
      { st with next_report_millis := add32 t REPORTING_TIME_MS }
    else st
  if heapDue t st1 then
    { st1 with next_heap_millis := add32 t (5 * 1000) }
  else st1

/-- The clock values at which the report branch fires along a trace of
ticks, starting from schedule state `st`. -/
def reportFires : List Nat → ScheduleState → List Nat
  | [], _ => []
  | t :: ts, st =>
    if reportDue t st then t :: reportFires ts (loopSchedule t st)
    else reportFires ts (loopSchedule t st)

/-! ## Helper lemmas -/

/-- Subtracting the calibration constant preserves NaN-ness. -/
theorem FVal.isnan_sub (x : FVal) (c : ℚ) : (x.sub c).isnan = x.isnan := by
  cases x <;> rfl

/-! ## Claim theorems -/

/-- C1: on a report tick, if either the temperature or the humidity reading
is invalid (NaN), the temperature and humidity characteristics are neither
written nor notified, while the occupancy characteristic is written and
notified (with the pin's boolean) regardless of sensor validity. -/
theorem invalid_env_skips_env_chars_occupancy_always (s : SensorState) :
    (Event.writeOccupancyChar s.occupancyPin ∈ my_homekit_report s ∧
     Event.notifyOccupancyChar s.occupancyPin ∈ my_homekit_report s) ∧
    ((s.dhtTemperature.isnan = true ∨ s.dhtHumidity.isnan = true) →
      ∀ v, Event.writeTemperatureChar v ∉ my_homekit_report s ∧
        Event.notifyTemperatureChar v ∉ my_homekit_report s ∧
        Event.writeHumidityChar v ∉ my_homekit_report s ∧
        Event.notifyHumidityChar v ∉ my_homekit_report s) := by
  constructor
  · simp [my_homekit_report]
  · intro h v
    rcases s with ⟨temp, hum, occ⟩
    rcases h with h | h
    · cases temp with
      | nan => simp [my_homekit_report, FVal.sub, FVal.isnan]
      | val q => simp [FVal.isnan] at h
    · cases hum with
      | nan => simp [my_homekit_report, FVal.sub, FVal.isnan]
      | val r => simp [FVal.isnan] at h

/-- C1 witness: at the spec's test vector (temperature NaN, humidity 20,
occupied) the occupancy characteristic is published as `true` and the
temperature characteristic is not notified with any value, e.g. `21`. -/
theorem invalid_env_skips_env_chars_occupancy_always_witness :
    (Event.writeOccupancyChar true ∈
        my_homekit_report (SensorState.mk FVal.nan (FVal.val 20) true) ∧
     Event.notifyOccupancyChar true ∈
        my_homekit_report (SensorState.mk FVal.nan (FVal.val 20) true)) ∧
    Event.notifyTemperatureChar (FVal.val 21) ∉
        my_homekit_report (SensorState.mk FVal.nan (FVal.val 20) true) :=
  ⟨(invalid_env_skips_env_chars_occupancy_always
      (SensorState.mk FVal.nan (FVal.val 20) true)).1,
   ((invalid_env_skips_env_chars_occupancy_always
      (SensorState.mk FVal.nan (FVal.val 20) true)).2
      (Or.inl rfl) (FVal.val 21)).2.1⟩

/-- C10: the validity check tests the temperature after the offset has been
subtracted; since NaN − 3 is still NaN, a failed temperature read is
detected, the skip branch runs (the failure message is printed), and no
calibrated-NaN temperature is ever written or notified. -/
theorem nan_temp_detected_after_offset (s : SensorState)
    (h : s.dhtTemperature = FVal.nan) :
    s.dhtTemperature.sub 3 = FVal.nan ∧
    (s.dhtTemperature.sub 3).isnan = true ∧
    Event.serialPrintlnDhtFail ∈ my_homekit_report s ∧
    (∀ v, Event.writeTemperatureChar v ∉ my_homekit_report s) ∧
    (∀ v, Event.notifyTemperatureChar v ∉ my_homekit_report s) := by
  rcases s with ⟨temp, hum, occ⟩
  cases h
  simp [my_homekit_report, FVal.sub, FVal.isnan]

/-- C10 witness: with a failed temperature read (NaN) and humidity 20, the
failure message is printed and no temperature value is published. -/
theorem nan_temp_detected_after_offset_witness :
    Event.serialPrintlnDhtFail ∈
      my_homekit_report (SensorState.mk FVal.nan (FVal.val 20) false) ∧
    Event.writeTemperatureChar (FVal.val 18) ∉
      my_homekit_report (SensorState.mk FVal.nan (FVal.val 20) false) :=
  ⟨(nan_temp_detected_after_offset
      (SensorState.mk FVal.nan (FVal.val 20) false) rfl).2.2.1,
   (nan_temp_detected_after_offset
      (SensorState.mk FVal.nan (FVal.val 20) false) rfl).2.2.2.1 (FVal.val 18)⟩

/-- C4: on a valid report tick the temperature characteristic is written and
notified with exactly the raw sensor temperature minus the fixed calibration
offset 3, and the humidity characteristic with exactly the raw humidity.
The report path recomputes `raw − 3` from a fresh read each tick (it is a
function of the current `SensorState` only), so the offset is applied
exactly once per reading and cannot accumulate across ticks. -/
theorem report_publishes_calibrated_temp_and_raw_hum (s : SensorState)
    (q r : ℚ) (ht : s.dhtTemperature = FVal.val q)
    (hh : s.dhtHumidity = FVal.val r) :
    (∀ v, Event.writeTemperatureChar v ∈ my_homekit_report s ↔
        v = FVal.val (q - 3)) ∧
    (∀ v, Event.notifyTemperatureChar v ∈ my_homekit_report s ↔
        v = FVal.val (q - 3)) ∧
    (∀ v, Event.writeHumidityChar v ∈ my_homekit_report s ↔ v = FVal.val r) ∧
    (∀ v, Event.notifyHumidityChar v ∈ my_homekit_report s ↔
        v = FVal.val r) := by
  simp [my_homekit_report, ht, hh, FVal.sub, FVal.isnan]

/-- C4 witness: with raw temperature 21 and humidity 40 the published
temperature is 18 = 21 − 3 and the published humidity is 40. -/
theorem report_publishes_calibrated_temp_and_raw_hum_witness :
    Event.notifyTemperatureChar (FVal.val 18) ∈
      my_homekit_report (SensorState.mk (FVal.val 21) (FVal.val 40) false) ∧
    Event.notifyHumidityChar (FVal.val 40) ∈
      my_homekit_report (SensorState.mk (FVal.val 21) (FVal.val 40) false) :=
  ⟨((report_publishes_calibrated_temp_and_raw_hum
      (SensorState.mk (FVal.val 21) (FVal.val 40) false) 21 40 rfl rfl).2.1
      (FVal.val 18)).2 (by norm_num),
   ((report_publishes_calibrated_temp_and_raw_hum
      (SensorState.mk (FVal.val 21) (FVal.val 40) false) 21 40 rfl rfl).2.2.2
      (FVal.val 40)).2 rfl⟩

/-- C7: on every report tick the occupancy characteristic is written and
notified with exactly the boolean read from the occupancy pin on that tick,
and the D0 output pin is driven to that same boolean; any occupancy write,
notify, or D0 write occurring on the tick carries that boolean. -/
theorem occupancy_char_mirrors_pin_and_output (s : SensorState) :
    Event.digitalWriteD0 s.occupancyPin ∈ my_homekit_report s ∧
    Event.writeOccupancyChar s.occupancyPin ∈ my_homekit_report s ∧
    Event.notifyOccupancyChar s.occupancyPin ∈ my_homekit_report s ∧
    (∀ b, Event.digitalWriteD0 b ∈ my_homekit_report s → b = s.occupancyPin) ∧
    (∀ b, Event.writeOccupancyChar b ∈ my_homekit_report s →
        b = s.occupancyPin) ∧
    (∀ b, Event.notifyOccupancyChar b ∈ my_homekit_report s →
        b = s.occupancyPin) := by
  rcases s with ⟨temp, hum, occ⟩
  refine ⟨?_, ?_, ?_, ?_, ?_, ?_⟩ <;>
    cases temp <;> cases hum <;>
      simp [my_homekit_report, FVal.sub, FVal.isnan]

/-- C7 witness: with the pin reading `true`, the tick drives D0 high and
notifies the occupancy characteristic with `true`. -/
theorem occupancy_char_mirrors_pin_and_output_witness :
    Event.digitalWriteD0 true ∈
      my_homekit_report (SensorState.mk (FVal.val 21) (FVal.val 40) true) ∧
    Event.notifyOccupancyChar true ∈
      my_homekit_report (SensorState.mk (FVal.val 21) (FVal.val 40) true) ∧
    true = (SensorState.mk (FVal.val 21) (FVal.val 40) true).occupancyPin :=
  ⟨(occupancy_char_mirrors_pin_and_output
      (SensorState.mk (FVal.val 21) (FVal.val 40) true)).1,
   (occupancy_char_mirrors_pin_and_output
      (SensorState.mk (FVal.val 21) (FVal.val 40) true)).2.2.1,
   (occupancy_char_mirrors_pin_and_output
      (SensorState.mk (FVal.val 21) (FVal.val 40) true)).2.2.2.2.2 true
      (by decide)⟩

/-- C8: the report path is deterministic in the underlying sensor state —
two runs over identical raw temperature, humidity and occupancy-pin values
produce equal `SampleReading`s and an equal event trace (so in particular
every notify carries the same payload in both runs). -/
theorem report_deterministic_in_sensor_state (s1 s2 : SensorState)
    (ht : s1.dhtTemperature = s2.dhtTemperature)
    (hh : s1.dhtHumidity = s2.dhtHumidity)
    (ho : s1.occupancyPin = s2.occupancyPin) :
    sampleReading s1 = sampleReading s2 ∧
    my_homekit_report s1 = my_homekit_report s2 := by
  rcases s1 with ⟨t1, h1, o1⟩
  rcases s2 with ⟨t2, h2, o2⟩
  cases ht; cases hh; cases ho
  exact ⟨rfl, rfl⟩

/-- C8 witness: two structurally distinct sensor states with the same raw
values yield the same reading and the same event trace. -/
theorem report_deterministic_in_sensor_state_witness :
    sampleReading (SensorState.mk (FVal.val 21) (FVal.val 40) true) =
      sampleReading (SensorState.mk (FVal.val 21) (FVal.val 40) true) ∧
    my_homekit_report (SensorState.mk (FVal.val 21) (FVal.val 40) true) =
      my_homekit_report (SensorState.mk (FVal.val 21) (FVal.val 40) true) :=
  report_deterministic_in_sensor_state
    (SensorState.mk (FVal.val 21) (FVal.val 40) true)
    (SensorState.mk (FVal.val 21) (FVal.val 40) true) rfl rfl rfl

/-- C2 counterexample: the deadline addition is `uint32_t` and wraps.  At
clock `2^32 − 1` with the initial schedule state the gate fires, the new
deadline wraps to `1999`, and a second evaluation with the same clock value
fires again — falsifying the claim's "a second evaluation with the same
`now` does not fire again" as universally stated. -/
theorem report_gate_refires_at_wrap :
    reportDue 4294967295 initialScheduleState = true ∧
    (my_homekit_loop 4294967295
        (SensorState.mk (FVal.val 21) (FVal.val 40) false)
        initialScheduleState).1.next_report_millis = 1999 ∧
    reportDue 4294967295
      (my_homekit_loop 4294967295
        (SensorState.mk (FVal.val 21) (FVal.val 40) false)
        initialScheduleState).1 = true := by
  decide

/-- C2 (amended): the report gate fires iff `now` is strictly greater than
the stored deadline; on firing, the deadline is advanced to
`(now + REPORT_INTERVAL) mod 2^32` independently of the report's side
effects, and provided `now + REPORT_INTERVAL` does not overflow 32 bits, a
second evaluation with the same `now` does not fire again. -/
theorem report_gate_fires_iff_and_advances (t : Nat) (s : SensorState)
    (st : ScheduleState) :
    (reportDue t st = true ↔ st.next_report_millis < t) ∧
    (reportDue t st = true →
      (my_homekit_loop t s st).1.next_report_millis =
        add32 t REPORTING_TIME_MS) ∧
    (reportDue t st = true → t + REPORTING_TIME_MS < UINT32_MOD →
      reportDue t (my_homekit_loop t s st).1 = false) := by
  refine ⟨by simp [reportDue], ?_, ?_⟩
  · intro hfire
    simp only [my_homekit_loop, hfire, if_true]
    split <;> rfl
  · intro hfire hbound
    have hmod : add32 t REPORTING_TIME_MS = t + REPORTING_TIME_MS :=
      Nat.mod_eq_of_lt hbound
    simp only [my_homekit_loop, hfire, if_true]
    split <;> simp [reportDue, hmod]

/-- C2 witness for the amended statement: at clock 3 from the initial state
the gate fires, the deadline becomes 2003, and re-evaluating at clock 3
does not fire. -/
theorem report_gate_fires_iff_and_advances_witness :
    (reportDue 3 initialScheduleState = true ↔
      initialScheduleState.next_report_millis < 3) ∧
    (my_homekit_loop 3 (SensorState.mk (FVal.val 21) (FVal.val 40) false)
        initialScheduleState).1.next_report_millis =
      add32 3 REPORTING_TIME_MS ∧
    reportDue 3
      (my_homekit_loop 3 (SensorState.mk (FVal.val 21) (FVal.val 40) false)
        initialScheduleState).1 = false :=
  ⟨(report_gate_fires_iff_and_advances 3
      (SensorState.mk (FVal.val 21) (FVal.val 40) false)
      initialScheduleState).1,
   (report_gate_fires_iff_and_advances 3
      (SensorState.mk (FVal.val 21) (FVal.val 40) false)
      initialScheduleState).2.1 (by decide),
   (report_gate_fires_iff_and_advances 3
      (SensorState.mk (FVal.val 21) (FVal.val 40) false)
      initialScheduleState).2.2 (by decide) (by decide)⟩

/-- C3 counterexample: the heap-log branch hardcodes `5 * 1000`, not the
unused `SHOW_HEAP_MS` macro (10000): firing at clock 1 sets the next heap
deadline to 5001, not `1 + 10000`. -/
theorem heap_deadline_5000_not_10000 :
    heapDue 1 initialScheduleState = true ∧
    (my_homekit_loop 1 (SensorState.mk (FVal.val 21) (FVal.val 40) false)
        initialScheduleState).1.next_heap_millis = 5001 ∧
    add32 1 SHOW_HEAP_MS = 10001 ∧ (5001 : Nat) ≠ 10001 := by
  decide

/-- C3 (amended): diagnostic logging is rate-limited to at most once per
5000 ms — the source hardcodes `5 * 1000`; the `SHOW_HEAP_MS` macro
(10000 ms) is defined but never used.  Whenever the heap deadline elapses,
the client count is queried, the log line is emitted, and the next heap
deadline is set to the current clock plus 5000 (mod 2^32); absent 32-bit
overflow, no clock value within the following 5000 ms fires the gate
again. -/
theorem heap_log_rate_limited_5000 (t : Nat) (s : SensorState)
    (st : ScheduleState) (hfire : heapDue t st = true) :
    (my_homekit_loop t s st).1.next_heap_millis = add32 t (5 * 1000) ∧
    Event.queryConnectedClients ∈ (my_homekit_loop t s st).2 ∧
    Event.logHeapLine ∈ (my_homekit_loop t s st).2 ∧
    (t + 5 * 1000 < UINT32_MOD →
      ∀ u, u ≤ t + 5 * 1000 → heapDue u (my_homekit_loop t s st).1 = false) := by
  have hlt : st.next_heap_millis < t := by simpa [heapDue] using hfire
  by_cases hr : reportDue t st = true
  · refine ⟨by simp [my_homekit_loop, hr, heapDue, hlt],
      by simp [my_homekit_loop, hr, heapDue, hlt],
      by simp [my_homekit_loop, hr, heapDue, hlt], ?_⟩
    intro hb u hu
    have hm : add32 t (5 * 1000) = t + 5 * 1000 := Nat.mod_eq_of_lt hb
    simp [my_homekit_loop, hr, heapDue, hlt, hm]
    omega
  · refine ⟨by simp [my_homekit_loop, hr, heapDue, hlt],
      by simp [my_homekit_loop, hr, heapDue, hlt],
      by simp [my_homekit_loop, hr, heapDue, hlt], ?_⟩
    intro hb u hu
    have hm : add32 t (5 * 1000) = t + 5 * 1000 := Nat.mod_eq_of_lt hb
    simp [my_homekit_loop, hr, heapDue, hlt, hm]
    omega

/-- C3 witness for the amended statement: firing at clock 7 from the
initial state sets the heap deadline to 5007, emits the log line, and the
gate does not fire again at clock 5007. -/
theorem heap_log_rate_limited_5000_witness :
    (my_homekit_loop 7 (SensorState.mk (FVal.val 21) (FVal.val 40) false)
        initialScheduleState).1.next_heap_millis = add32 7 (5 * 1000) ∧
    Event.logHeapLine ∈
      (my_homekit_loop 7 (SensorState.mk (FVal.val 21) (FVal.val 40) false)
        initialScheduleState).2 ∧
    heapDue 5007
      (my_homekit_loop 7 (SensorState.mk (FVal.val 21) (FVal.val 40) false)
        initialScheduleState).1 = false :=
  ⟨(heap_log_rate_limited_5000 7
      (SensorState.mk (FVal.val 21) (FVal.val 40) false)
      initialScheduleState (by decide)).1,
   (heap_log_rate_limited_5000 7
      (SensorState.mk (FVal.val 21) (FVal.val 40) false)
      initialScheduleState (by decide)).2.2.1,
   (heap_log_rate_limited_5000 7
      (SensorState.mk (FVal.val 21) (FVal.val 40) false)
      initialScheduleState (by decide)).2.2.2 (by decide) 5007 (by decide)⟩

/-- C6: on a tick where the heap deadline has elapsed but the report
deadline has not, the tick's only events are the HomeKit server loop call,
the client-count query, and the heap log line — so no sensor read, no
characteristic write, no notify, no pin write — and the report deadline is
left unchanged. -/
theorem heap_only_tick_is_pure_log (t : Nat) (s : SensorState)
    (st : ScheduleState) (hr : reportDue t st = false)
    (hh : heapDue t st = true) :
    (my_homekit_loop t s st).2 =
      [Event.homekitServerLoop, Event.queryConnectedClients,
       Event.logHeapLine] ∧
    (my_homekit_loop t s st).1.next_report_millis = st.next_report_millis := by
  have hlt : st.next_heap_millis < t := by simpa [heapDue] using hh
  constructor <;> simp [my_homekit_loop, hr, heapDue, hlt]

/-- C6 witness: at clock 10 with report deadline 100 and heap deadline 0,
the tick only queries and logs, and the report deadline stays 100. -/
theorem heap_only_tick_is_pure_log_witness :
    (my_homekit_loop 10 (SensorState.mk (FVal.val 21) (FVal.val 40) true)
        (ScheduleState.mk 100 0)).2 =
      [Event.homekitServerLoop, Event.queryConnectedClients,
       Event.logHeapLine] ∧
    (my_homekit_loop 10 (SensorState.mk (FVal.val 21) (FVal.val 40) true)
        (ScheduleState.mk 100 0)).1.next_report_millis =
      (ScheduleState.mk 100 0).next_report_millis :=
  heap_only_tick_is_pure_log 10
    (SensorState.mk (FVal.val 21) (FVal.val 40) true)
    (ScheduleState.mk 100 0) (by decide) (by decide)

/-- C9: both static deadlines start at zero, so on the first tick whose
clock is strictly positive both gates fire: the tick performs a full report
followed by the client-count query and heap log line, with no startup
delay of one interval. -/
theorem initial_tick_fires_both (t : Nat) (s : SensorState) (h : 0 < t) :
    initialScheduleState.next_report_millis = 0 ∧
    initialScheduleState.next_heap_millis = 0 ∧
    reportDue t initialScheduleState = true ∧
    heapDue t initialScheduleState = true ∧
    (my_homekit_loop t s initialScheduleState).2 =
      Event.homekitServerLoop :: (my_homekit_report s ++
        [Event.queryConnectedClients, Event.logHeapLine]) := by
  refine ⟨rfl, rfl, ?_, ?_, ?_⟩ <;>
    simp [my_homekit_loop, reportDue, heapDue, initialScheduleState, h]

/-- C9 witness: at clock 1 from the initial state, both branches fire. -/
theorem initial_tick_fires_both_witness :
    reportDue 1 initialScheduleState = true ∧
    heapDue 1 initialScheduleState = true ∧
    (my_homekit_loop 1 (SensorState.mk (FVal.val 21) (FVal.val 40) false)
        initialScheduleState).2 =
      Event.homekitServerLoop ::
        (my_homekit_report (SensorState.mk (FVal.val 21) (FVal.val 40) false)
          ++ [Event.queryConnectedClients, Event.logHeapLine]) :=
  ⟨(initial_tick_fires_both 1
      (SensorState.mk (FVal.val 21) (FVal.val 40) false) (by decide)).2.2.1,
   (initial_tick_fires_both 1
      (SensorState.mk (FVal.val 21) (FVal.val 40) false) (by decide)).2.2.2.1,
   (initial_tick_fires_both 1
      (SensorState.mk (FVal.val 21) (FVal.val 40) false) (by decide)).2.2.2.2⟩

/-- The report deadline after one tick of the schedule: advanced to
`(t + REPORTING_TIME_MS) mod 2^32` when the gate fires, unchanged
otherwise (the heap branch never touches it). -/
theorem loopSchedule_next_report (t : Nat) (st : ScheduleState) :
    (loopSchedule t st).next_report_millis =
      (if reportDue t st then add32 t REPORTING_TIME_MS
       else st.next_report_millis) := by
  by_cases hr : reportDue t st = true <;>
    by_cases hh : st.next_heap_millis < t <;>
      simp [loopSchedule, heapDue, hr, hh]

/-- Every clock value at which the report gate fires along a trace is
strictly greater than the starting report deadline (assuming no 32-bit
overflow in the deadline additions along the trace). -/
theorem reportFires_gt (ts : List Nat) :
    ∀ st : ScheduleState,
      (∀ u ∈ ts, u + REPORTING_TIME_MS < UINT32_MOD) →
      ∀ x ∈ reportFires ts st, st.next_report_millis < x := by
  induction ts with
  | nil =>
    intro st _ x hx
    simp [reportFires] at hx
  | cons t ts ih =>
    intro st hb x hx
    by_cases hf : reportDue t st = true
    · rw [reportFires, if_pos hf] at hx
      rcases List.mem_cons.mp hx with rfl | hx'
      · simpa [reportDue] using hf
      · have hnext : (loopSchedule t st).next_report_millis =
            add32 t REPORTING_TIME_MS := by
          rw [loopSchedule_next_report, if_pos hf]
        have hx2 := ih (loopSchedule t st)
          (fun u hu => hb u (List.mem_cons_of_mem _ hu)) x hx'
        rw [hnext] at hx2
        have hmod : add32 t REPORTING_TIME_MS = t + REPORTING_TIME_MS :=
          Nat.mod_eq_of_lt (hb t (List.mem_cons_self _ _))
        have hlt : st.next_report_millis < t := by simpa [reportDue] using hf
        omega
    · rw [reportFires, if_neg hf] at hx
      have hnext : (loopSchedule t st).next_report_millis =
          st.next_report_millis := by
        rw [loopSchedule_next_report, if_neg hf]
      have hx2 := ih (loopSchedule t st)
        (fun u hu => hb u (List.mem_cons_of_mem _ hu)) x hx
      rwa [hnext] at hx2

/-- Along a trace without 32-bit overflow, any two report fires (in trace
order) are at least `REPORTING_TIME_MS` apart. -/
theorem reportFires_pairwise (ts : List Nat) :
    ∀ st : ScheduleState,
      (∀ u ∈ ts, u + REPORTING_TIME_MS < UINT32_MOD) →
      List.Pairwise (fun a b => a + REPORTING_TIME_MS ≤ b)
        (reportFires ts st) := by
  induction ts with
  | nil =>
    intro st _
    simp [reportFires]
  | cons t ts ih =>
    intro st hb
    have hbt : ∀ u ∈ ts, u + REPORTING_TIME_MS < UINT32_MOD :=
      fun u hu => hb u (List.mem_cons_of_mem _ hu)
    by_cases hf : reportDue t st = true
    · rw [reportFires, if_pos hf]
      refine List.pairwise_cons.mpr ⟨?_, ih _ hbt⟩
      intro x hx
      have hgt := reportFires_gt ts (loopSchedule t st) hbt x hx
      have hnext : (loopSchedule t st).next_report_millis =
          add32 t REPORTING_TIME_MS := by
        rw [loopSchedule_next_report, if_pos hf]
      have hmod : add32 t REPORTING_TIME_MS = t + REPORTING_TIME_MS :=
        Nat.mod_eq_of_lt (hb t (List.mem_cons_self _ _))
      rw [hnext, hmod] at hgt
      omega
    · rw [reportFires, if_neg hf]
      exact ih _ hbt

/-- The fire list is a sublist of the tick list: each tick contributes at
most one report fire. -/
theorem reportFires_sublist (ts : List Nat) :
    ∀ st : ScheduleState, List.Sublist (reportFires ts st) ts := by
  induction ts with
  | nil =>
    intro st
    simp [reportFires]
  | cons t ts ih =>
    intro st
    by_cases hf : reportDue t st = true
    · rw [reportFires, if_pos hf]
      exact List.Sublist.cons₂ t (ih _)
    · rw [reportFires, if_neg hf]
      exact List.Sublist.cons t (ih _)

/-- C5 counterexample: with a strictly increasing, non-wrapping clock (all
values below `2^32`), the deadline addition still wraps near the top of the
32-bit range: from the initial state, ticks at `2^32 − 1000` and
`2^32 − 999` both fire, only 1 ms apart — falsifying the claim as stated. -/
theorem report_double_fire_at_wrap :
    List.Chain' (fun a b => a < b) [4294966296, 4294966297] ∧
    reportFires [4294966296, 4294966297] initialScheduleState =
      [4294966296, 4294966297] ∧
    4294966297 < 4294966296 + REPORTING_TIME_MS := by
  refine ⟨?_, by decide, by decide⟩
  norm_num [List.chain'_cons]

/-- C5 (amended): along any trace of ticks with a monotonically increasing
clock all of whose values keep the deadline addition below `2^32` (no
32-bit wrap), report fires are pairwise at least `REPORTING_TIME_MS` apart
— so if a report fires at clock `t`, no later report fires before
`t + REPORTING_TIME_MS` — and the fire list is a sublist of the tick list,
so a report fires at most once per tick. -/
theorem report_fires_separated_by_interval (ts : List Nat)
    (st : ScheduleState) (_hmono : List.Chain' (fun a b => a < b) ts)
    (hbound : ∀ u ∈ ts, u + REPORTING_TIME_MS < UINT32_MOD) :
    List.Pairwise (fun a b => a + REPORTING_TIME_MS ≤ b)
      (reportFires ts st) ∧
    List.Sublist (reportFires ts st) ts :=
  ⟨reportFires_pairwise ts st hbound, reportFires_sublist ts st⟩

/-- C5 witness: on ticks 1, 2, 2500 from the initial state the gate fires
at 1 and 2500 only — spaced by at least 2000 ms and a sublist of the
ticks. -/
theorem report_fires_separated_by_interval_witness :
    reportFires [1, 2, 2500] initialScheduleState = [1, 2500] ∧
    List.Pairwise (fun a b => a + REPORTING_TIME_MS ≤ b)
      (reportFires [1, 2, 2500] initialScheduleState) ∧
    List.Sublist (reportFires [1, 2, 2500] initialScheduleState)
      [1, 2, 2500] :=
  ⟨by decide,
   (report_fires_separated_by_interval [1, 2, 2500] initialScheduleState
      (by norm_num [List.chain'_cons]) (by decide)).1,
   (report_fires_separated_by_interval [1, 2, 2500] initialScheduleState
      (by norm_num [List.chain'_cons]) (by decide)).2⟩

end Jennytest
